import Mathlib

/-!
Verification of the chaincode-event subscription manager of
node-red-contrib-fabric (src/nodes/fabric.js).

The development shallowly embeds the event-subscription core:

* the normalized event payload built inside `chaincodeEventFactory`
  (fabric.js lines 212-218) as an ordered key/value object;
* the listener-options computation inlined in `subscribeToEvent`
  (lines 341-357) as `buildOptions`, with a model of the JavaScript
  `parseInt` builtin on decimal inputs;
* the owner registry `eventHubsHandler` with `addHubToHandler`
  (lines 289-296) and `disconnectEventHub` (lines 302-320), together with
  the node teardown handlers of `FabricMidNode` (lines 509-517) and
  `FabricInNode` (lines 541-543);
* the delivery-mode controller: the event callback and error callback of
  `chaincodeEventFactory` (lines 211-245) and the inactivity timer set up
  by `subscribeToEvent` (lines 361-376), as a step machine over timed
  event traces;
* `eventHubFactory` (lines 259-280), whose catch clause returns the caught
  error object as a normal value.

External transport objects (channel event hubs) are identified by natural
numbers; their connection state is modelled as the set of currently
connected hub identifiers.
-/

namespace Fabric

/-- A JavaScript value appearing in a normalized event payload object. -/
inductive JsVal where
  | str : String → JsVal
  | int : Int → JsVal
deriving DecidableEq, Repr

/-- A raw chaincode event as handed to the `registerChaincodeEvent`
callback: the event object (whose `payload` is a byte Buffer) together with
the `blockNumber`, `txid` and `status` callback arguments
(fabric.js line 212). -/
structure RawChaincodeEvent where
  payloadBytes : List Nat
  blockNumber : Int
  txid : String
  status : String
deriving DecidableEq, Repr

/-- Models the external `Buffer.prototype.toString` with encoding `utf8`
applied to the event payload (fabric.js line 214): an abstract injective
decode of the byte sequence to text, one character per byte. -/
def bufferToString (bytes : List Nat) : String :=
  String.mk (bytes.map (fun b => Char.ofNat b))

/-- An ordered JavaScript object, as a list of key/value pairs in literal
order. -/
abbrev NormEvent := List (String × JsVal)

/-- The `eventPayload` object literal built by the event callback of
`chaincodeEventFactory` (fabric.js lines 213-218): keys in source order
`payload`, `blockNumber`, `txid`, `status`. -/
def normalizeEvent (e : RawChaincodeEvent) : NormEvent :=
  [("payload", JsVal.str (bufferToString e.payloadBytes)),
   ("blockNumber", JsVal.int e.blockNumber),
   ("txid", JsVal.str e.txid),
   ("status", JsVal.str e.status)]

/-- Longest leading run of decimal digits of a character list. -/
def leadingDigits : List Char → List Char
  | [] => []
  | c :: cs => if c.isDigit then c :: leadingDigits cs else []

/-- Numeric value of a list of decimal digit characters. -/
def digitsVal (ds : List Char) : Nat :=
  ds.foldl (fun n c => 10 * n + (c.toNat - 48)) 0

/-- Models the JavaScript builtin `parseInt` (no radix argument) on its
decimal fragment, as used at fabric.js lines 341-342: skip leading
whitespace, read an optional sign, then take the longest prefix of decimal
digits; the result is `none` (JavaScript `NaN`) when no digit is found.
(The hexadecimal `0x` special case of the builtin is not modelled; block
numbers are decimal.) -/
def parseIntJS (s : String) : Option Int :=
  let cs := s.data.dropWhile Char.isWhitespace
  match cs with
  | '-' :: rest =>
      let ds := leadingDigits rest
      if ds.isEmpty then none else some (-(digitsVal ds : Int))
  | '+' :: rest =>
      let ds := leadingDigits rest
      if ds.isEmpty then none else some ((digitsVal ds : Int))
  | _ =>
      let ds := leadingDigits cs
      if ds.isEmpty then none else some ((digitsVal ds : Int))

/-- A raw start/end block input: `none` models an absent value (JavaScript
`undefined` or `null`, for which `parseInt` yields `NaN`), `some s` a
string input. -/
def parseRawBlock : Option String → Option Int
  | none => none
  | some s => parseIntJS s

/-- The listener options object assembled by `subscribeToEvent`
(fabric.js line 344): absent keys are `none`. -/
structure ListenerOptions where
  startBlock : Option Int := none
  endBlock : Option Int := none
  disconnect : Option Bool := none
deriving DecidableEq, Repr

/-- The options computation of `subscribeToEvent` (fabric.js lines
341-357): parse both raw blocks; set `startBlock` when its parse succeeds;
when the end-block parse succeeds set `endBlock`, force `disconnect` to
`false` (workaround for the upstream FABN-1207 defect), and force
`startBlock` to `0` when it was not already set. -/
def buildOptions (startBlockRaw endBlockRaw : Option String) : ListenerOptions :=
  let startBlock := parseRawBlock startBlockRaw
  let endBlock := parseRawBlock endBlockRaw
  let opts : ListenerOptions := {}
  let opts :=
    match startBlock with
    | some sb => { opts with startBlock := some sb }
    | none => opts
  match endBlock with
  | some eb =>
      let opts2 := { opts with endBlock := some eb, disconnect := some false }
      if opts2.startBlock = none then { opts2 with startBlock := some 0 } else opts2
  | none => opts

/-- Identifier of an external channel event hub object. -/
abbrev HubId := Nat

/-- The module-level `eventHubsHandler` map (fabric.js line 24), as an
association list from node id to the list of hubs that node created. -/
abbrev Registry := List (String × List HubId)

/-- The registry together with the connection state of the external hub
objects: `connected` is the set (as a list) of hub identifiers whose
transport is currently connected; `hub.disconnect()` removes a hub from
it. -/
structure HubsState where
  registry : Registry
  connected : List HubId
deriving DecidableEq, Repr

/-- `addHubToHandler` (fabric.js lines 289-296): append the hub to the
node's existing list, or create a fresh singleton entry. -/
def addHubToHandler (nodeId : String) (hub : HubId) (reg : Registry) : Registry :=
  if (reg.lookup nodeId).isSome then
    reg.map (fun p => if p.1 = nodeId then (p.1, p.2 ++ [hub]) else p)
  else
    reg ++ [(nodeId, [hub])]

/-- The effect of `hub.disconnect()` on the external connection state. -/
def hubDisconnect (h : HubId) (conn : List HubId) : List HubId :=
  conn.filter (fun x => decide (x ≠ h))

/-- One iteration of the `eventHub.forEach` loop of `disconnectEventHub`
(fabric.js lines 305-313): if the hub is in the node's entry, disconnect it
and splice out its first occurrence. -/
def disconnectOneStep (nodeId : String) (st : HubsState) (hub : HubId) : HubsState :=
  match st.registry.lookup nodeId with
  | none => st
  | some entry =>
      if hub ∈ entry then
        { registry := st.registry.map
            (fun p => if p.1 = nodeId then (p.1, p.2.erase hub) else p),
          connected := hubDisconnect hub st.connected }
      else st

/-- `disconnectEventHub` (fabric.js lines 302-320): a no-op when the
registry has no entry for the node; with an explicit hub list, disconnect
and splice each listed hub found in the entry; without one, disconnect
every hub of the entry while leaving the entry itself untouched. -/
def disconnectEventHub (nodeId : String) (eventHub : Option (List HubId))
    (st : HubsState) : HubsState :=
  match st.registry.lookup nodeId with
  | none => st
  | some entry =>
      match eventHub with
      | some hubs => hubs.foldl (disconnectOneStep nodeId) st
      | none =>
          { st with connected := st.connected.filter (fun x => decide (x ∉ entry)) }

/-- The `close` handler of `FabricMidNode` (fabric.js lines 509-517): when
the node has a registry entry, disconnect all of its hubs and then `delete`
the entry. -/
def fabricMidNodeClose (nodeId : String) (st : HubsState) : HubsState :=
  match st.registry.lookup nodeId with
  | none => st
  | some _ =>
      let st1 := disconnectEventHub nodeId none st
      { st1 with registry := st1.registry.filter (fun p => decide (p.1 ≠ nodeId)) }

/-- The `close` handler of `FabricInNode` (fabric.js lines 541-543): it
only calls `disconnectEventHub` and never deletes the registry entry. -/
def fabricInNodeClose (nodeId : String) (st : HubsState) : HubsState :=
  disconnectEventHub nodeId none st

/-- One delivery made by the listener to the caller via `node.send`: in
stream mode a single normalized event (fabric.js lines 224-226), on a
batch flush the whole accumulated event list (lines 369-371). -/
inductive Delivery where
  | single : NormEvent → Delivery
  | batch : List NormEvent → Delivery
deriving DecidableEq, Repr

/-- The inactivity window of the batch timer: `setTimeout(..., 2000)` at
fabric.js line 363-374. -/
def batchWindowMs : Nat := 2000

/-- State of one registered listener together with its timer (batch mode)
and the trace of deliveries it has made: `isTimeout` is the delivery-mode
flag, `eventList` the accumulated batch, `timerDeadline` the absolute time
at which the pending timer fires, `timerDone` the `eventTimeout.done` flag
(fabric.js lines 366, 375), and `sends` the `node.send` calls so far. -/
structure ListenerState where
  isTimeout : Bool
  eventList : List NormEvent
  timerDeadline : Nat
  timerDone : Bool
  sends : List Delivery
deriving DecidableEq, Repr

/-- The timer callback of `subscribeToEvent` (fabric.js lines 363-374):
when the timer fires it sets `done`, disconnects the listener's hubs and
delivers the whole accumulated `eventList` as one message; once `done`,
nothing further happens. (The callback's `if (event)` guard holds in every
modelled run because registration completes before any event or firing is
processed.) -/
def timerFire (s : ListenerState) : ListenerState :=
  if s.isTimeout ∧ s.timerDone = false then
    { s with timerDone := true, sends := s.sends ++ [Delivery.batch s.eventList] }
  else s

/-- The event callback of `chaincodeEventFactory` (fabric.js lines
212-228), processing one matching raw event arriving at absolute time `t`
with inactivity window `w`. In batch mode: once the flush has run the hub
is disconnected and no further event is delivered; a pending timer whose
deadline has passed fires during the silence before `t` (and the event,
arriving after the flush's disconnect, is dropped); otherwise the event is
normalized, appended to the batch, and the timer refreshed to `t + w`
(line 221, `timeout.refresh()`). In stream mode the normalized event is
sent immediately as its own message. -/
def onChaincodeEvent (w : Nat) (s : ListenerState) (t : Nat)
    (e : RawChaincodeEvent) : ListenerState :=
  if s.isTimeout then
    if s.timerDone then s
    else if s.timerDeadline ≤ t then timerFire s
    else { s with eventList := s.eventList ++ [normalizeEvent e],
                  timerDeadline := t + w }
  else
    { s with sends := s.sends ++ [Delivery.single (normalizeEvent e)] }

/-- Listener state right after `subscribeToEvent` registers the listener
(time 0): empty batch, no deliveries, timer armed to fire at `w`. -/
def initListener (isTimeout : Bool) (w : Nat) : ListenerState :=
  { isTimeout := isTimeout, eventList := [], timerDeadline := w,
    timerDone := false, sends := [] }

/-- A complete batch-mode run: the listener registered with the timeout
flag processes the timed arrivals in order, and afterwards (nothing more
ever arrives, so the trailing silence exceeds any window) the pending
inactivity timer fires. -/
def runBatch (w : Nat) (arrivals : List (Nat × RawChaincodeEvent)) : ListenerState :=
  timerFire (arrivals.foldl (fun s a => onChaincodeEvent w s a.1 a.2)
    (initListener true w))

/-- A complete stream-mode run: the listener registered without the timeout
flag processes the timed arrivals in order; no timer is involved. -/
def runStream (w : Nat) (arrivals : List (Nat × RawChaincodeEvent)) : ListenerState :=
  arrivals.foldl (fun s a => onChaincodeEvent w s a.1 a.2) (initListener false w)

/-- `goodTimes w prev ts` holds when the times `ts` are nondecreasing
starting from `prev` and each is strictly less than one window after its
predecessor (with `prev` the previous refresh point, initially the
registration instant). -/
def goodTimes (w : Nat) : Nat → List Nat → Bool
  | _, [] => true
  | prev, t :: ts => (decide (prev ≤ t) && decide (t < prev + w)) && goodTimes w t ts

/-- What the error callback of `chaincodeEventFactory` does with a
transport error (fabric.js lines 229-242): log it and surface it via
`node.error`, or — in batch mode, when the flush already ran and the error
message is the expected shutdown signal — only log the expected shutdown. -/
inductive ErrorAction where
  | suppressedLog : ErrorAction
  | forwarded : ErrorAction
deriving DecidableEq, Repr

/-- The hub-shutdown error message compared against at fabric.js
line 231. -/
def shutdownMessage : String := "ChannelEventHub has been shutdown"

/-- The error callback of `chaincodeEventFactory` (fabric.js lines
229-242), as a function of the delivery-mode flag, the timer's `done` flag
and the error's message. -/
def chaincodeErrorHandler (isTimeout : Bool) (timerDone : Bool)
    (errMessage : String) : ErrorAction :=
  if isTimeout then
    if timerDone = true ∧ errMessage = shutdownMessage then .suppressedLog
    else .forwarded
  else .forwarded

/-- The value held by the `eventHub` variable of `subscribeToEvent` when it
is not an array: either an actual hub, or — after `eventHubFactory` caught
an error — the caught error object itself. -/
inductive HubHandle where
  | hub : HubId → HubHandle
  | errObj : String → HubHandle
deriving DecidableEq, Repr

/-- The result of `eventHubFactory`: an array of hubs (per-org mode), or a
non-array value (a single hub, or a caught error object returned as the
normal result). -/
inductive FactoryResult where
  | arr : List HubId → FactoryResult
  | nonArray : HubHandle → FactoryResult
deriving DecidableEq, Repr

/-- The channel collaborator as seen by `eventHubFactory`:
`getChannelEventHubsForOrg()` and `newChannelEventHub(peerName)`, each of
which either returns hubs or throws (modelled as `Except`). -/
structure Channel where
  orgHubs : Except String (List HubId)
  newHub : String → Except String HubId

/-- The per-org branch of `eventHubFactory` (fabric.js lines 261-268):
enumerate the org's hubs, register each into the owner registry, then log
`eventHubsHandler[node.id].length` — an access that throws a `TypeError`
(caught by the surrounding catch) when no entry exists, i.e. when the org
has no hubs and the node had none registered before. -/
def eventHubFactoryOrg (ch : Channel) (nodeId : String) (st : HubsState) :
    FactoryResult × HubsState :=
  match ch.orgHubs with
  | .error e => (.nonArray (.errObj e), st)
  | .ok hubs =>
      let reg2 := hubs.foldl (fun r h => addHubToHandler nodeId h r) st.registry
      match reg2.lookup nodeId with
      | none => (.nonArray (.errObj "TypeError"), { st with registry := reg2 })
      | some _ => (.arr hubs, { st with registry := reg2 })

/-- `eventHubFactory` (fabric.js lines 259-280): with an empty or absent
peer name, take the per-org branch; otherwise create one hub for the named
peer and register it. The whole body sits in a try/catch whose catch
clause returns the caught error object as the function's normal result, so
the factory never throws, and a failed acquisition adds nothing to the
registry. -/
def eventHubFactory (ch : Channel) (peerName : Option String) (nodeId : String)
    (st : HubsState) : FactoryResult × HubsState :=
  match peerName with
  | none => eventHubFactoryOrg ch nodeId st
  | some p =>
      if p = "" then eventHubFactoryOrg ch nodeId st
      else
        match ch.newHub p with
        | .error e => (.nonArray (.errObj e), st)
        | .ok h =>
            (.nonArray (.hub h),
             { st with registry := addHubToHandler nodeId h st.registry })

/-- The registration dispatch of `subscribeToEvent` (fabric.js lines
379-389): an array result registers the listener once per hub; any
non-array result — a hub or a caught error object — is passed to
`chaincodeEventFactory` as the hub of a single registration. -/
def registrationCalls : FactoryResult → List HubHandle
  | .arr hubs => hubs.map HubHandle.hub
  | .nonArray h => [h]

/-- Deleting one key from an association list leaves lookups of every other
key unchanged. -/
theorem lookup_filter_ne {α : Type} (l : List (String × α)) (a b : String)
    (hne : b ≠ a) :
    (l.filter (fun p => decide (p.1 ≠ a))).lookup b = l.lookup b := by
  induction l with
  | nil => rfl
  | cons hd tl ih =>
      rcases hd with ⟨k, v⟩
      rw [List.filter_cons]
      by_cases hk : k = a
      · rw [if_neg (by simp [hk])]
        rw [ih]
        have hb : (b == k) = false := by
          rw [beq_eq_false_iff_ne, hk]
          exact hne
        simp [List.lookup, hb]
      · rw [if_pos (by simp [hk])]
        by_cases hb : b = k
        · simp [List.lookup, hb]
        · have hb' : (b == k) = false := by
            rw [beq_eq_false_iff_ne]
            exact hb
          have hstep : ∀ X : List (String × α),
              List.lookup b ((k, v) :: X) = List.lookup b X := by
            intro X
            simp [List.lookup, hb']
          rw [hstep, hstep]
          exact ih

/-- Deleting a key from an association list makes its lookup `none`. -/
theorem lookup_filter_self {α : Type} (l : List (String × α)) (a : String) :
    (l.filter (fun p => decide (p.1 ≠ a))).lookup a = none := by
  induction l with
  | nil => rfl
  | cons hd tl ih =>
      rcases hd with ⟨k, v⟩
      rw [List.filter_cons]
      by_cases hk : k = a
      · rw [if_neg (by simp [hk])]
        exact ih
      · rw [if_pos (by simp [hk])]
        have ha : (a == k) = false := by
          rw [beq_eq_false_iff_ne]
          exact fun h => hk h.symm
        have hstep : ∀ X : List (String × α),
            List.lookup a ((k, v) :: X) = List.lookup a X := by
          intro X
          simp [List.lookup, ha]
        rw [hstep]
        exact ih

/-- Filtering a list with the same predicate twice equals filtering once. -/
theorem filter_idem {α : Type} (p : α → Bool) (l : List α) :
    (l.filter p).filter p = l.filter p := by
  induction l with
  | nil => rfl
  | cons hd tl ih =>
      cases hp : p hd <;> simp [List.filter_cons, hp, ih]

end Fabric

namespace Fabric

/-- Claim C3: whenever the end-block input parses as an integer and the
start-block input does not (absent or un-parseable), the computed listener
options contain `startBlock = 0`. -/
theorem endBlock_forces_startBlock_zero (sRaw eRaw : Option String) (e : Int)
    (hs : parseRawBlock sRaw = none) (he : parseRawBlock eRaw = some e) :
    (buildOptions sRaw eRaw).startBlock = some 0 := by
  simp [buildOptions, hs, he]

/-- Witness for C3 at a concrete input pair: start `"oops"` does not parse,
end `"20"` parses, and the computed options carry `startBlock = 0`. -/
theorem endBlock_forces_startBlock_zero_witness :
    (buildOptions (some "oops") (some "20")).startBlock = some 0 :=
  endBlock_forces_startBlock_zero (some "oops") (some "20") 20 (by decide) (by decide)

/-- Claim C4: whenever the end-block input parses as an integer, regardless
of the start-block input, the computed listener options contain
`disconnect = false`. -/
theorem endBlock_forces_disconnect_false (sRaw eRaw : Option String) (e : Int)
    (he : parseRawBlock eRaw = some e) :
    (buildOptions sRaw eRaw).disconnect = some false := by
  cases hs : parseRawBlock sRaw <;> simp [buildOptions, hs, he]

/-- Witness for C4 at a concrete input pair: with end `"20"` and a parsing
start `"5"`, the computed options carry `disconnect = false`. -/
theorem endBlock_forces_disconnect_false_witness :
    (buildOptions (some "5") (some "20")).disconnect = some false :=
  endBlock_forces_disconnect_false (some "5") (some "20") 20 (by decide)

/-- When the registry has no entry for a node, the mid node's close handler
leaves the state untouched. -/
theorem midClose_of_lookup_none (nodeId : String) (st : HubsState)
    (hn : st.registry.lookup nodeId = none) :
    fabricMidNodeClose nodeId st = st := by
  simp [fabricMidNodeClose, hn]

/-- When the registry has no entry for a node, the in node's close handler
leaves the state untouched. -/
theorem inClose_of_lookup_none (nodeId : String) (st : HubsState)
    (hn : st.registry.lookup nodeId = none) :
    fabricInNodeClose nodeId st = st := by
  simp [fabricInNodeClose, disconnectEventHub, hn]

/-- Claim C2: for two distinct owners whose registry entries hold disjoint
hub instances (hubs are never shared), running owner A's teardown — the
mid node's close handler or the in node's close handler — leaves owner B's
registry entry unchanged and every connected hub of B still connected. -/
theorem teardown_frame_other_owner (A B : String) (st : HubsState)
    (entryA entryB : List HubId) (h : HubId)
    (hAB : A ≠ B)
    (hA : st.registry.lookup A = some entryA)
    (hB : st.registry.lookup B = some entryB)
    (hdisj : ∀ x ∈ entryB, x ∉ entryA)
    (hmem : h ∈ entryB) (hconn : h ∈ st.connected) :
    ((fabricMidNodeClose A st).registry.lookup B = some entryB
      ∧ h ∈ (fabricMidNodeClose A st).connected)
    ∧ ((fabricInNodeClose A st).registry.lookup B = some entryB
      ∧ h ∈ (fabricInNodeClose A st).connected) := by
  have hnotinA : h ∉ entryA := hdisj h hmem
  have hin : disconnectEventHub A none st =
      { st with connected := st.connected.filter (fun x => decide (x ∉ entryA)) } := by
    simp [disconnectEventHub, hA]
  have hmid : fabricMidNodeClose A st =
      { registry := st.registry.filter (fun p => decide (p.1 ≠ A)),
        connected := st.connected.filter (fun x => decide (x ∉ entryA)) } := by
    simp [fabricMidNodeClose, hA, hin]
  have hconn2 : h ∈ st.connected.filter (fun x => decide (x ∉ entryA)) :=
    List.mem_filter.mpr ⟨hconn, by simpa using hnotinA⟩
  refine ⟨⟨?_, ?_⟩, ?_, ?_⟩
  · rw [hmid]
    rw [lookup_filter_ne st.registry A B (Ne.symm hAB)]
    exact hB
  · rw [hmid]
    exact hconn2
  · rw [fabricInNodeClose, hin]
    exact hB
  · rw [fabricInNodeClose, hin]
    exact hconn2

/-- Witness for C2 at a concrete state: owners `"A"` and `"B"` each own one
hub; tearing down `"A"` leaves `"B"` registered with hub 2 still
connected. -/
theorem teardown_frame_other_owner_witness :
    ((fabricMidNodeClose "A" ⟨[("A", [1]), ("B", [2])], [1, 2]⟩).registry.lookup "B"
        = some [2]
      ∧ 2 ∈ (fabricMidNodeClose "A" ⟨[("A", [1]), ("B", [2])], [1, 2]⟩).connected)
    ∧ ((fabricInNodeClose "A" ⟨[("A", [1]), ("B", [2])], [1, 2]⟩).registry.lookup "B"
        = some [2]
      ∧ 2 ∈ (fabricInNodeClose "A" ⟨[("A", [1]), ("B", [2])], [1, 2]⟩).connected) :=
  teardown_frame_other_owner "A" "B" ⟨[("A", [1]), ("B", [2])], [1, 2]⟩ [1] [2] 2
    (by decide) (by decide) (by decide) (by decide) (by decide) (by decide)

/-- Counterexample for C6 as stated: the in node's teardown (fabric.js
lines 541-543) is one of the cited disconnect-all operations, yet after
running it for owner `"A"` (one registered hub) the registry still has an
entry for `"A"` — the entry is never deleted there. -/
theorem disconnectAll_removes_entry_cex :
    (fabricInNodeClose "A" ⟨[("A", [1])], [1]⟩).registry.lookup "A" ≠ none := by
  decide

/-- Claim C6 amended: for every owner with a registry entry, the
disconnect-all operation disconnects every hub of that entry; the mid
node's teardown additionally deletes the owner's entry (afterwards the
registry has no entry for it), but the in node's teardown leaves the
owner's entry — with its now-disconnected hubs — in the registry. -/
theorem disconnectAll_amended (nodeId : String) (st : HubsState)
    (entry : List HubId)
    (hE : st.registry.lookup nodeId = some entry) :
    (∀ h ∈ entry, h ∉ (disconnectEventHub nodeId none st).connected)
    ∧ (fabricMidNodeClose nodeId st).registry.lookup nodeId = none
    ∧ (∀ h ∈ entry, h ∉ (fabricMidNodeClose nodeId st).connected)
    ∧ (fabricInNodeClose nodeId st).registry.lookup nodeId = some entry := by
  have hin : disconnectEventHub nodeId none st =
      { st with connected := st.connected.filter (fun x => decide (x ∉ entry)) } := by
    simp [disconnectEventHub, hE]
  have hmid : fabricMidNodeClose nodeId st =
      { registry := st.registry.filter (fun p => decide (p.1 ≠ nodeId)),
        connected := st.connected.filter (fun x => decide (x ∉ entry)) } := by
    simp [fabricMidNodeClose, hE, hin]
  have hgone : ∀ h ∈ entry, h ∉ st.connected.filter (fun x => decide (x ∉ entry)) := by
    intro h hh hc
    have := (List.mem_filter.mp hc).2
    simp at this
    exact this hh
  refine ⟨?_, ?_, ?_, ?_⟩
  · rw [hin]
    exact hgone
  · rw [hmid]
    exact lookup_filter_self st.registry nodeId
  · rw [hmid]
    exact hgone
  · rw [fabricInNodeClose, hin]
    exact hE

/-- Witness for the amended C6 at a concrete state: tearing down owner
`"A"` via the mid node's close handler leaves no registry entry for
`"A"`. -/
theorem disconnectAll_amended_witness :
    (fabricMidNodeClose "A" ⟨[("A", [1])], [1]⟩).registry.lookup "A" = none :=
  (disconnectAll_amended "A" ⟨[("A", [1])], [1]⟩ [1] (by decide)).2.1

/-- Claim C9: teardown of an owner with no registry entry is a no-op (and
in particular raises no error — both teardown handlers are total), and
both the mid node's and the in node's teardown are idempotent: running
either one a second time leaves the state exactly as after the first
run. -/
theorem teardown_noop_idempotent (nodeId : String) (st : HubsState) :
    (st.registry.lookup nodeId = none →
      fabricMidNodeClose nodeId st = st ∧ fabricInNodeClose nodeId st = st)
    ∧ fabricMidNodeClose nodeId (fabricMidNodeClose nodeId st)
        = fabricMidNodeClose nodeId st
    ∧ fabricInNodeClose nodeId (fabricInNodeClose nodeId st)
        = fabricInNodeClose nodeId st := by
  refine ⟨?_, ?_, ?_⟩
  · intro hn
    exact ⟨midClose_of_lookup_none nodeId st hn, inClose_of_lookup_none nodeId st hn⟩
  · cases hl : st.registry.lookup nodeId with
    | none =>
        simp only [midClose_of_lookup_none nodeId st hl]
    | some entry =>
        have hin : disconnectEventHub nodeId none st =
            { st with connected := st.connected.filter (fun x => decide (x ∉ entry)) } := by
          simp [disconnectEventHub, hl]
        have hmid : fabricMidNodeClose nodeId st =
            { registry := st.registry.filter (fun p => decide (p.1 ≠ nodeId)),
              connected := st.connected.filter (fun x => decide (x ∉ entry)) } := by
          simp [fabricMidNodeClose, hl, hin]
        rw [hmid]
        exact midClose_of_lookup_none nodeId _ (lookup_filter_self st.registry nodeId)
  · cases hl : st.registry.lookup nodeId with
    | none =>
        simp only [inClose_of_lookup_none nodeId st hl]
    | some entry =>
        have hin : fabricInNodeClose nodeId st =
            { st with connected := st.connected.filter (fun x => decide (x ∉ entry)) } := by
          simp [fabricInNodeClose, disconnectEventHub, hl]
        rw [hin]
        have hl2 : (HubsState.mk st.registry
            (st.connected.filter (fun x => decide (x ∉ entry)))).registry.lookup nodeId
            = some entry := hl
        simp [fabricInNodeClose, disconnectEventHub, hl2, filter_idem]

/-- Witness for C9 at a concrete state with no entry for the owner: both
teardown handlers leave the state untouched. -/
theorem teardown_noop_idempotent_witness :
    fabricMidNodeClose "A" ⟨[], []⟩ = ⟨[], []⟩
    ∧ fabricInNodeClose "A" ⟨[], []⟩ = ⟨[], []⟩ :=
  (teardown_noop_idempotent "A" ⟨[], []⟩).1 (by decide)

/-- The event callback never changes the delivery-mode flag of the
listener. -/
theorem onEvent_isTimeout (w : Nat) (s : ListenerState) (t : Nat)
    (e : RawChaincodeEvent) :
    (onChaincodeEvent w s t e).isTimeout = s.isTimeout := by
  unfold onChaincodeEvent timerFire
  split_ifs <;> rfl

/-- Processing any sequence of arrivals preserves the delivery-mode
flag. -/
theorem fold_isTimeout (w : Nat) (arrivals : List (Nat × RawChaincodeEvent))
    (s : ListenerState) :
    (arrivals.foldl (fun st a => onChaincodeEvent w st a.1 a.2) s).isTimeout
      = s.isTimeout := by
  induction arrivals generalizing s with
  | nil => rfl
  | cons a rest ih => rw [List.foldl_cons, ih, onEvent_isTimeout]

/-- Batch-mode fold invariant: starting from an un-flushed batch listener
whose timer is armed one window after the previous refresh point, a trace
of arrivals whose times satisfy `goodTimes` is fully appended to the batch
in order, the timer never fires mid-trace, and no delivery is made. -/
theorem batch_fold_inv (w : Nat) (arrivals : List (Nat × RawChaincodeEvent)) :
    ∀ (prev : Nat) (s : ListenerState),
      s.isTimeout = true → s.timerDone = false → s.timerDeadline = prev + w →
      goodTimes w prev (arrivals.map Prod.fst) = true →
      ∃ d, arrivals.foldl (fun st a => onChaincodeEvent w st a.1 a.2) s =
        { isTimeout := true,
          eventList := s.eventList ++ arrivals.map (fun a => normalizeEvent a.2),
          timerDeadline := d, timerDone := false, sends := s.sends } := by
  induction arrivals with
  | nil =>
      intro prev s h1 h2 _ _
      refine ⟨s.timerDeadline, ?_⟩
      cases s
      simp_all
  | cons a rest ih =>
      intro prev s h1 h2 h3 h4
      rcases a with ⟨t, e⟩
      simp only [List.map_cons, goodTimes, Bool.and_eq_true, decide_eq_true_eq] at h4
      obtain ⟨⟨hle, hlt⟩, hrest⟩ := h4
      rw [List.foldl_cons]
      have hstep : onChaincodeEvent w s t e =
          { s with eventList := s.eventList ++ [normalizeEvent e],
                   timerDeadline := t + w } := by
        have hnd : ¬ s.timerDeadline ≤ t := by
          rw [h3]
          omega
        simp [onChaincodeEvent, h1, h2, hnd]
      rw [hstep]
      obtain ⟨d, hd⟩ := ih t
        { s with eventList := s.eventList ++ [normalizeEvent e],
                 timerDeadline := t + w }
        (by simpa using h1) (by simpa using h2) rfl hrest
      refine ⟨d, ?_⟩
      rw [hd]
      simp

/-- A batch run over a `goodTimes` trace delivers exactly one flush,
carrying all normalized events in arrival order, and marks the timer
done. -/
theorem runBatch_flushes (w : Nat) (arrivals : List (Nat × RawChaincodeEvent))
    (h : goodTimes w 0 (arrivals.map Prod.fst) = true) :
    (runBatch w arrivals).sends
      = [Delivery.batch (arrivals.map (fun a => normalizeEvent a.2))]
    ∧ (runBatch w arrivals).timerDone = true := by
  obtain ⟨d, hd⟩ := batch_fold_inv w arrivals 0 (initListener true w) rfl rfl
    (by simp [initListener]) h
  unfold runBatch
  rw [hd]
  constructor <;> simp [timerFire, initListener]

/-- Every finished batch run ends with the timer's `done` flag set: either
an arrival triggered the overdue timer, or the final firing after the
trace did. -/
theorem runBatch_timerDone (w : Nat) (arrivals : List (Nat × RawChaincodeEvent)) :
    (runBatch w arrivals).timerDone = true := by
  have hT : (arrivals.foldl (fun st a => onChaincodeEvent w st a.1 a.2)
      (initListener true w)).isTimeout = true :=
    fold_isTimeout w arrivals (initListener true w)
  unfold runBatch timerFire
  split
  · rfl
  · next hcond =>
      simp only [hT, true_and, not_not] at hcond
      simp [hcond]

/-- Stream-mode fold: every processed event immediately produces one
delivery carrying its single normalized payload, in order. -/
theorem stream_fold (w : Nat) (arrivals : List (Nat × RawChaincodeEvent)) :
    ∀ s : ListenerState, s.isTimeout = false →
      (arrivals.foldl (fun st a => onChaincodeEvent w st a.1 a.2) s).sends
        = s.sends ++ arrivals.map (fun a => Delivery.single (normalizeEvent a.2)) := by
  induction arrivals with
  | nil =>
      intro s _
      simp
  | cons a rest ih =>
      intro s hs
      rw [List.foldl_cons]
      have hstep : onChaincodeEvent w s a.1 a.2 =
          { s with sends := s.sends ++ [Delivery.single (normalizeEvent a.2)] } := by
        simp [onChaincodeEvent, hs]
      rw [hstep, ih _ (by simpa using hs)]
      simp

/-- Claim C1: in batch-with-timeout mode, any trace of matching events in
which the first event arrives within one window of registration, events
are nondecreasing in time and consecutive events arrive strictly less than
the inactivity window apart, produces — after the trailing silence —
exactly one flush: a single delivery whose payload is the list of all
normalized events in arrival order. -/
theorem batch_timeout_single_flush (arrivals : List (Nat × RawChaincodeEvent))
    (h : goodTimes batchWindowMs 0 (arrivals.map Prod.fst) = true) :
    (runBatch batchWindowMs arrivals).sends
      = [Delivery.batch (arrivals.map (fun a => normalizeEvent a.2))] :=
  (runBatch_flushes batchWindowMs arrivals h).1

/-- A concrete raw chaincode event used by witnesses. -/
def sampleEvent1 : RawChaincodeEvent :=
  { payloadBytes := [104, 105], blockNumber := 3, txid := "tx1", status := "VALID" }

/-- A second concrete raw chaincode event used by witnesses. -/
def sampleEvent2 : RawChaincodeEvent :=
  { payloadBytes := [111, 107], blockNumber := 4, txid := "tx2", status := "VALID" }

/-- Witness for C1 at a concrete trace: two events at 100ms and 1500ms
(gaps below the 2000ms window) yield exactly one flush holding both
normalized events in order. -/
theorem batch_timeout_single_flush_witness :
    (runBatch batchWindowMs [(100, sampleEvent1), (1500, sampleEvent2)]).sends
      = [Delivery.batch [normalizeEvent sampleEvent1, normalizeEvent sampleEvent2]] :=
  batch_timeout_single_flush [(100, sampleEvent1), (1500, sampleEvent2)] (by decide)

/-- Claim C7: in stream mode, a trace of N matching events produces exactly
N deliveries, the i-th delivery carrying exactly the i-th normalized event
on its own — never an accumulated array. -/
theorem stream_mode_one_delivery_per_event
    (arrivals : List (Nat × RawChaincodeEvent)) :
    (runStream batchWindowMs arrivals).sends
      = arrivals.map (fun a => Delivery.single (normalizeEvent a.2))
    ∧ (runStream batchWindowMs arrivals).sends.length = arrivals.length := by
  have h := stream_fold batchWindowMs arrivals (initListener false batchWindowMs) rfl
  unfold runStream
  rw [h]
  constructor <;> simp [initListener]

/-- Claim C5: after a batch run the flush has set the `done` flag; with
that flag the error callback suppresses (only logs) a transport error
carrying the expected shutdown message, while any error not matching the
deliberate-teardown condition is forwarded to `node.error`. -/
theorem expected_shutdown_suppressed (arrivals : List (Nat × RawChaincodeEvent))
    (done : Bool) (m : String) :
    (runBatch batchWindowMs arrivals).timerDone = true
    ∧ chaincodeErrorHandler true ((runBatch batchWindowMs arrivals).timerDone)
        shutdownMessage = ErrorAction.suppressedLog
    ∧ (¬(done = true ∧ m = shutdownMessage) →
        chaincodeErrorHandler true done m = ErrorAction.forwarded) := by
  refine ⟨runBatch_timerDone batchWindowMs arrivals, ?_, ?_⟩
  · rw [runBatch_timerDone batchWindowMs arrivals]
    simp [chaincodeErrorHandler]
  · intro hne
    simp [chaincodeErrorHandler, hne]

/-- Witness for C5 at concrete inputs: an ordinary transport error (done
flag unset, non-shutdown message) is forwarded to the error sink. -/
theorem expected_shutdown_suppressed_witness :
    chaincodeErrorHandler true false "connection dropped" = ErrorAction.forwarded :=
  (expected_shutdown_suppressed [] false "connection dropped").2.2 (by decide)

/-- Counterexample for C8 as stated: the normalized payload of a concrete
event has no `transactionId` field at all — its keys are `payload`,
`blockNumber`, `txid`, `status`. -/
theorem normalized_payload_fields_cex :
    (normalizeEvent sampleEvent1).lookup "transactionId" = none
    ∧ (normalizeEvent sampleEvent1).map Prod.fst
        ≠ ["payload", "blockNumber", "transactionId", "status"] := by
  decide

/-- Claim C8 amended: every delivered event is normalized to an object with
exactly the fields `payload` (the payload bytes decoded as text),
`blockNumber` (integer), `txid` (string) and `status` (string) — the
transaction-id field is named `txid`, not `transactionId`. -/
theorem normalized_payload_fields_amended (e : RawChaincodeEvent) :
    (normalizeEvent e).map Prod.fst = ["payload", "blockNumber", "txid", "status"]
    ∧ (normalizeEvent e).lookup "payload"
        = some (JsVal.str (bufferToString e.payloadBytes))
    ∧ (normalizeEvent e).lookup "blockNumber" = some (JsVal.int e.blockNumber)
    ∧ (normalizeEvent e).lookup "txid" = some (JsVal.str e.txid)
    ∧ (normalizeEvent e).lookup "status" = some (JsVal.str e.status)
    ∧ (normalizeEvent e).lookup "transactionId" = none := by
  refine ⟨rfl, ?_, ?_, ?_, ?_, ?_⟩ <;> rfl

/-- Claim C10: when resolving or creating hubs fails, `eventHubFactory`
does not throw — the caught error object is its normal result, the owner
registry is left exactly as it was (the failed acquisition is never
recorded), and `subscribeToEvent`'s dispatch then performs one single-hub
registration using that error value as the hub handle. -/
theorem factory_error_as_value (ch : Channel) (nodeId : String) (st : HubsState)
    (e : String) :
    (ch.orgHubs = Except.error e →
      ∀ pn : Option String, (pn = none ∨ pn = some "") →
        eventHubFactory ch pn nodeId st = (FactoryResult.nonArray (HubHandle.errObj e), st)
        ∧ registrationCalls (eventHubFactory ch pn nodeId st).1 = [HubHandle.errObj e])
    ∧ (∀ p : String, p ≠ "" → ch.newHub p = Except.error e →
        eventHubFactory ch (some p) nodeId st
          = (FactoryResult.nonArray (HubHandle.errObj e), st)
        ∧ registrationCalls (eventHubFactory ch (some p) nodeId st).1
          = [HubHandle.errObj e]) := by
  constructor
  · intro he pn hpn
    have horg : eventHubFactoryOrg ch nodeId st
        = (FactoryResult.nonArray (HubHandle.errObj e), st) := by
      simp [eventHubFactoryOrg, he]
    rcases hpn with h | h <;> subst h <;>
      simp [eventHubFactory, horg, registrationCalls]
  · intro p hp hnew
    constructor <;> simp [eventHubFactory, hp, hnew, registrationCalls]

/-- A concrete channel whose hub acquisition always fails. -/
def failingChannel : Channel :=
  { orgHubs := Except.error "connect failed",
    newHub := fun _ => Except.error "connect failed" }

/-- Witness for C10 at a concrete channel and empty registry: the failure
is returned as the result, the registry stays empty, and one registration
call is made with the error object as the hub. -/
theorem factory_error_as_value_witness :
    eventHubFactory failingChannel none "node1" ⟨[], []⟩
      = (FactoryResult.nonArray (HubHandle.errObj "connect failed"), ⟨[], []⟩)
    ∧ registrationCalls (eventHubFactory failingChannel none "node1" ⟨[], []⟩).1
      = [HubHandle.errObj "connect failed"] :=
  (factory_error_as_value failingChannel "node1" ⟨[], []⟩ "connect failed").1
    rfl none (Or.inl rfl)

end Fabric
